import Mathlib

/-!
Shallow embedding of the wildfire-ingestion pipeline of this repository
(`server/services/nasaService.js`, `server/index.js`): the bounding region and
source catalog, the locality resolver `reverseGeocode`, the CSV normalizer
inside `getMaranhaoFireData`, the fetch loop, the persister `saveFireData`
over an explicit relational state, and the midnight scheduler
`scheduleWeatherUpdate`.  JavaScript runtime primitives (`parseFloat`,
`parseInt`, `new Date`, the network) are modelled as oracle parameters; a JS
number that may be `NaN` is modelled as `Option ℚ` with `none` standing for
`NaN`, and a `Date` object that may be an Invalid Date as `Option ℤ` with
`none` standing for the invalid date.
-/

namespace FireWatch

attribute [local semireducible] Rat.sub Rat.add Rat.mul Rat.inv Rat.ofScientific

/-- Bounding region record, after `MARANHAO_STATE_BOUNDS` in nasaService.js. -/
structure Bounds where
  north : ℚ
  south : ℚ
  west : ℚ
  east : ℚ
deriving DecidableEq

/-- The configured Maranhão bounding box (nasaService.js lines 69-74):
north -0.2813, south -10.4675, west -47.4748, east -41.1000, written with
`mkRat` so that concrete comparisons reduce inside the kernel. -/
def MARANHAO_STATE_BOUNDS : Bounds :=
  { north := mkRat (-2813) 10000
    south := mkRat (-104675) 10000
    west := mkRat (-474748) 10000
    east := mkRat (-411000) 10000 }

/-- One entry of the source catalog (`SATELLITE_SOURCES`); the `description`
field is never read by the pipeline and is omitted. -/
structure SatSource where
  id : String
  name : String
deriving DecidableEq

/-- The static source catalog (nasaService.js lines 77-108). -/
def SATELLITE_SOURCES : List SatSource :=
  [ { id := "VIIRS_SNPP_NRT", name := "VIIRS SNPP NRT" }
  , { id := "VIIRS_NOAA20_NRT", name := "VIIRS NOAA-20 NRT" }
  , { id := "MODIS_NRT", name := "MODIS NRT" }
  , { id := "VIIRS_SNPP_SP", name := "VIIRS SNPP Standard" }
  , { id := "VIIRS_NOAA20_SP", name := "VIIRS NOAA-20 Standard" }
  , { id := "MODIS_SP", name := "MODIS Standard" } ]

/-- An entry of the Locality Index (`cities` from data/cities.js): the code
reads exactly the fields `name`, `latitude`, `longitude`. -/
structure City where
  name : String
  latitude : ℚ
  longitude : ℚ
deriving DecidableEq

/-- The value returned by `reverseGeocode`: a state code and municipality. -/
structure Geo where
  state : String
  municipality : String
deriving DecidableEq

/-- Outcome of the primary Nominatim reverse-geocoding call, as the code
observes it: `fail` covers a thrown fetch, a non-ok HTTP status, and a
response without `data.address`; `address m` is a parsed response whose
`city || town || village || hamlet` chain yields `m` (or nothing). -/
inductive NomOutcome where
  | fail : NomOutcome
  | address : Option String → NomOutcome
deriving DecidableEq

/-- Squared Euclidean distance in raw latitude/longitude degrees
(nasaService.js lines 236-238 compute `Math.sqrt(dx*dx + dy*dy)`; the square
root is strictly monotone on nonnegative reals, so the strict `<`
comparisons of the loop select the same city when driven by the square of
the distance, which keeps the definition inside ℚ). -/
def distSq (lat lon : ℚ) (c : City) : ℚ :=
  (lat - c.latitude) * (lat - c.latitude) + (lon - c.longitude) * (lon - c.longitude)

/-- The `for (const city of cities)` minimum-distance loop of `reverseGeocode`
(nasaService.js lines 232-244): `none` as accumulator plays the role of the
initial `minDistance = Infinity`, and the strict `<` keeps the earliest city
on ties. -/
def closestCityAux (lat lon : ℚ) : List City → Option (City × ℚ) → Option (City × ℚ)
  | [], best => best
  | c :: rest, best =>
    match best with
    | none => closestCityAux lat lon rest (some (c, distSq lat lon c))
    | some (b, bd) =>
      if distSq lat lon c < bd then closestCityAux lat lon rest (some (c, distSq lat lon c))
      else closestCityAux lat lon rest (some (b, bd))

/-- The closest city of the Locality Index to a point, as computed by the
fallback loop of `reverseGeocode`. -/
def closestCity (lat lon : ℚ) (cities : List City) : Option City :=
  (closestCityAux lat lon cities none).map Prod.fst

/-- The four-way out-of-region test used twice by the code, first in
`reverseGeocode` (lines 189-192) and again in the parse loop of
`getMaranhaoFireData` (lines 348-353). -/
def outOfMaranhaoBounds (latitude longitude : ℚ) : Bool :=
  decide (latitude < MARANHAO_STATE_BOUNDS.south) ||
  decide (latitude > MARANHAO_STATE_BOUNDS.north) ||
  decide (longitude < MARANHAO_STATE_BOUNDS.west) ||
  decide (longitude > MARANHAO_STATE_BOUNDS.east)

/-- The Locality Resolver `reverseGeocode` (nasaService.js lines 186-272):
bounds check first, then the primary Nominatim call; a match of the returned
municipality against the Locality Index (case-insensitive, first match wins)
returns that locality, every other outcome falls through to the
nearest-city scan.  The outer `catch` duplicates the same fallback and is
unreachable in this pure model. -/
def reverseGeocode (nominatim : ℚ → ℚ → NomOutcome) (cities : List City)
    (latitude longitude : ℚ) : Option Geo :=
  if outOfMaranhaoBounds latitude longitude then none
  else
    match nominatim latitude longitude with
    | NomOutcome.address (some m) =>
      match cities.find? (fun city => city.name.toLower == m.toLower) with
      | some matchingCity => some { state := "MA", municipality := matchingCity.name }
      | none =>
        match closestCity latitude longitude cities with
        | some c => some { state := "MA", municipality := c.name }
        | none => none
    | _ =>
      match closestCity latitude longitude cities with
      | some c => some { state := "MA", municipality := c.name }
      | none => none

/-- Oracles for the JavaScript runtime primitives used by the normalizer:
`parseFloatJS v = none` models `parseFloat` returning `NaN` (also on an
absent argument), `parseIntJS` likewise for `parseInt`, and
`parseDateJS s = none` models `new Date(s)` being an Invalid Date.
`nominatim` and `cities` drive `reverseGeocode`. -/
structure ParseEnv where
  parseFloatJS : Option String → Option ℚ
  parseIntJS : Option String → Option Int
  parseDateJS : String → Option Int
  nominatim : ℚ → ℚ → NomOutcome
  cities : List City

/-- The helper `safeParseFloat` of `getMaranhaoFireData` (nasaService.js
lines 312-315): `isNaN(parsed) ? 0 : parsed`.  The result is a JS number
(`Option ℚ`, `none` = `NaN`) that is never `NaN`. -/
def safeParseFloat (env : ParseEnv) (value : Option String) : Option ℚ :=
  match env.parseFloatJS value with
  | none => some 0
  | some parsed => some parsed

/-- The helper `safeParseInt` (nasaService.js lines 317-320). -/
def safeParseInt (env : ParseEnv) (value : Option String) : Option Int :=
  match env.parseIntJS value with
  | none => some 0
  | some parsed => some parsed

/-- Model of JavaScript `String.prototype.split` with a one-character
separator (the code only ever splits on a comma, a newline or an
underscore): a structural fold over the characters, chosen over core
`String.splitOn` so that concrete payloads reduce inside the kernel.  As in
JS, the empty string splits to `[""]` and separators at the ends produce
empty fragments. -/
def jsSplitChar (sep : Char) (s : String) : List String :=
  (s.data.foldr
    (fun c acc =>
      if c = sep then [] :: acc
      else
        match acc with
        | [] => [[c]]
        | group :: rest => (c :: group) :: rest)
    [[]]).map (fun cs => String.mk cs)

/-- Model of JavaScript `String.prototype.trim`: whitespace dropped from
both ends (kernel-reducible, unlike core `String.trim`). -/
def jsTrim (s : String) : String :=
  String.mk (((s.data.dropWhile Char.isWhitespace).reverse.dropWhile
    Char.isWhitespace).reverse)

/-- The row object built by `headers.forEach((header, index) =>
fire[header.trim()] = values[index]?.trim() || null)` (lines 326-329):
assignment in order, so a duplicate header keeps the last value, and an
empty trimmed value becomes `null` (`none`). -/
def rowRecord (headers values : List String) : String → Option String :=
  (headers.zip values).foldl
    (fun fire hv => fun key =>
      if key = jsTrim hv.fst then
        (if jsTrim hv.snd = "" then none else some (jsTrim hv.snd))
      else fire key)
    (fun _ => none)

/-- Field access on the row object of one CSV line. -/
def rowField (headers : List String) (line : String) (key : String) : Option String :=
  rowRecord headers (jsSplitChar ',' line) key

/-- The date-range skip of the parse loop (line 338): a JS `Date` comparison
is a number comparison, and on an Invalid Date (`none`, valueOf `NaN`) both
`<` and `>` are false, so the row is kept. -/
def dateOutsideRange (acq : Option Int) (startDate endDate : Int) : Bool :=
  match acq with
  | none => false
  | some t => decide (t < startDate) || decide (t > endDate)

/-- The canonical detection record pushed by the normalizer (nasaService.js
lines 362-378).  Measurement fields produced by `safeParseFloat` /
`safeParseInt` keep the JS-number embedding `Option _` (`none` = `NaN`);
the acquisition date keeps the `Option Int` Date embedding. -/
structure Fire where
  latitude : ℚ
  longitude : ℚ
  acquisition_date : Option Int
  brightness : Option ℚ
  scan : Option ℚ
  track : Option ℚ
  satellite : String
  instrument : String
  confidence : Option Int
  frp : Option ℚ
  daynight : String
  type : String
  version : String
  municipality : String
  state : String
deriving DecidableEq

/-- The body of the `for (let i = 1; i < lines.length; i++)` loop of
`getMaranhaoFireData` (nasaService.js lines 322-379) for one data line:
skip on column-count mismatch, skip on missing `acq_date`, skip when the
parsed date lies outside the requested range, skip when a coordinate is
`NaN`, skip when outside the bounding region, skip when `reverseGeocode`
yields nothing, otherwise emit the canonical detection. -/
def rowToFire (env : ParseEnv) (source : SatSource) (startDate endDate : Int)
    (headers : List String) (line : String) : Option Fire :=
  if (jsSplitChar ',' line).length ≠ headers.length then none
  else
    match rowField headers line "acq_date" with
    | none => none
    | some ds =>
      if dateOutsideRange (env.parseDateJS ds) startDate endDate then none
      else
        match safeParseFloat env (rowField headers line "latitude") with
        | none => none
        | some latitude =>
          match safeParseFloat env (rowField headers line "longitude") with
          | none => none
          | some longitude =>
            if outOfMaranhaoBounds latitude longitude then none
            else
              match reverseGeocode env.nominatim env.cities latitude longitude with
              | none => none
              | some municipalityInfo =>
                some
                  { latitude := latitude
                    longitude := longitude
                    acquisition_date := env.parseDateJS ds
                    brightness := safeParseFloat env ((rowField headers line "bright_ti4").orElse
                      (fun _ => rowField headers line "brightness"))
                    scan := safeParseFloat env (rowField headers line "scan")
                    track := safeParseFloat env (rowField headers line "track")
                    satellite := (rowField headers line "satellite").getD source.id
                    instrument := (rowField headers line "instrument").getD
                      ((jsSplitChar '_' source.id).headD "")
                    confidence := safeParseInt env (rowField headers line "confidence")
                    frp := safeParseFloat env (rowField headers line "frp")
                    daynight := (rowField headers line "daynight").getD "D"
                    type := "hotspot"
                    version := "1.0"
                    municipality := municipalityInfo.municipality
                    state := municipalityInfo.state }

/-- The CSV normalizer for one source payload (nasaService.js lines
307-379): `text.trim().split` into lines, the first line is the header row,
every further line goes through `rowToFire`. -/
def parseFires (env : ParseEnv) (source : SatSource) (startDate endDate : Int)
    (text : String) : List Fire :=
  let lines := jsSplitChar '\n' (jsTrim text)
  ((lines.drop 1).filterMap
    (rowToFire env source startDate endDate (jsSplitChar ',' (lines.headD ""))))

/-- Outcome of one `fetch(url)` call as the code distinguishes it: a rejected
promise (`threw`, re-thrown by the outer catch), a response with
`!response.ok` (skipped with `continue`), or a text payload. -/
inductive FetchResult where
  | threw : FetchResult
  | badStatus : FetchResult
  | ok : String → FetchResult
deriving DecidableEq

/-- Decidable equality of call results, for evaluating the model at
concrete inputs. -/
instance {ε α : Type} [DecidableEq ε] [DecidableEq α] : DecidableEq (Except ε α) :=
  fun a b =>
    match a, b with
    | Except.ok x, Except.ok y =>
      if h : x = y then Decidable.isTrue (by rw [h])
      else Decidable.isFalse (fun hc => h (by injection hc))
    | Except.error x, Except.error y =>
      if h : x = y then Decidable.isTrue (by rw [h])
      else Decidable.isFalse (fun hc => h (by injection hc))
    | Except.ok _, Except.error _ => Decidable.isFalse (fun hc => Except.noConfusion hc)
    | Except.error _, Except.ok _ => Decidable.isFalse (fun hc => Except.noConfusion hc)

/-- Environment of one `getMaranhaoFireData` call: the parse oracles plus
the network, keyed by source id. -/
structure FetchEnv where
  parse : ParseEnv
  fetch : String → FetchResult

/-- The FIRMS area request built at nasaService.js line 291: the bounding
box and a hard-coded `/10` day-range path segment, with the requested
`begin`/`end` dates appended as query parameters. -/
structure FirmsRequest where
  sourceId : String
  west : ℚ
  south : ℚ
  east : ℚ
  north : ℚ
  dayRange : Nat
  beginParam : Int
  endParam : Int
deriving DecidableEq

/-- The request issued for one source by `getMaranhaoFireData`. -/
def makeRequest (s : SatSource) (startDate endDate : Int) : FirmsRequest :=
  { sourceId := s.id
    west := MARANHAO_STATE_BOUNDS.west
    south := MARANHAO_STATE_BOUNDS.south
    east := MARANHAO_STATE_BOUNDS.east
    north := MARANHAO_STATE_BOUNDS.north
    dayRange := 10
    beginParam := startDate
    endParam := endDate }

/-- The `for (const source of SATELLITE_SOURCES)` loop of
`getMaranhaoFireData` (lines 283-383), also recording every request issued:
a thrown fetch propagates to the outer catch (which re-throws, line 389), a
non-ok status `continue`s to the next source, an ok response is parsed and
appended. -/
def getMaranhaoFireDataLoop (env : FetchEnv) (startDate endDate : Int) :
    List SatSource → List FirmsRequest → List Fire →
    List FirmsRequest × Except Unit (List Fire)
  | [], reqs, allFires => (reqs, Except.ok allFires)
  | s :: rest, reqs, allFires =>
    match env.fetch s.id with
    | FetchResult.threw => (reqs ++ [makeRequest s startDate endDate], Except.error ())
    | FetchResult.badStatus =>
      getMaranhaoFireDataLoop env startDate endDate rest
        (reqs ++ [makeRequest s startDate endDate]) allFires
    | FetchResult.ok text =>
      getMaranhaoFireDataLoop env startDate endDate rest
        (reqs ++ [makeRequest s startDate endDate])
        (allFires ++ parseFires env.parse s startDate endDate text)

/-- The Fetcher+Normalizer `getMaranhaoFireData(startDate, endDate)`
(nasaService.js lines 274-391), returning the requests it issued together
with its result: the collected fires, or the error re-thrown after a fetch
rejection.  No date-range validation is performed anywhere in it. -/
def getMaranhaoFireData (env : FetchEnv) (startDate endDate : Int) :
    List FirmsRequest × Except Unit (List Fire) :=
  getMaranhaoFireDataLoop env startDate endDate SATELLITE_SOURCES [] []

/-- The fires one source contributes to a completed `getMaranhaoFireData`
run: its parsed payload on an ok response, nothing on a skipped source. -/
def sourceFires (env : FetchEnv) (startDate endDate : Int) (s : SatSource) : List Fire :=
  match env.fetch s.id with
  | FetchResult.ok text => parseFires env.parse s startDate endDate text
  | _ => []

/-- The `for (const source of SATELLITE_SOURCES)` loop of
`fetchAllSatelliteData` (nasaService.js lines 681-694).  Each iteration
calls `getMaranhaoFireData` afresh (the network may answer differently each
time, hence one `FetchEnv` per iteration index); a thrown call is caught by
the per-iteration `try`/`catch` and the loop continues with other sources. -/
def fetchAllLoop (envs : Nat → FetchEnv) (startDate endDate : Int) :
    Nat → List SatSource → List Fire → List Fire
  | _, [], allFires => allFires
  | i, _ :: rest, allFires =>
    match (getMaranhaoFireData (envs i) startDate endDate).2 with
    | Except.ok fires => fetchAllLoop envs startDate endDate (i + 1) rest (allFires ++ fires)
    | Except.error _ => fetchAllLoop envs startDate endDate (i + 1) rest allFires

/-- `fetchAllSatelliteData(startDate, endDate)` (nasaService.js lines
677-698). -/
def fetchAllSatelliteData (envs : Nat → FetchEnv) (startDate endDate : Int) : List Fire :=
  fetchAllLoop envs startDate endDate 0 SATELLITE_SOURCES []

/-- The fires contributed by iteration `i` of `fetchAllSatelliteData`:
everything of a successful call, nothing of a caught failure. -/
def attemptFires (envs : Nat → FetchEnv) (startDate endDate : Int) (i : Nat) : List Fire :=
  match (getMaranhaoFireData (envs i) startDate endDate).2 with
  | Except.ok fires => fires
  | Except.error _ => []

/-- Concatenation of the per-iteration contributions of the
`fetchAllSatelliteData` loop, one iteration per catalog entry, starting at
iteration index `i`. -/
def attemptsFrom (envs : Nat → FetchEnv) (startDate endDate : Int) :
    Nat → List SatSource → List Fire
  | _, [] => []
  | i, _ :: rest =>
    attemptFires envs startDate endDate i ++ attemptsFrom envs startDate endDate (i + 1) rest

/-- A row of the `fire_locations` table (schema at nasaService.js lines
134-143, `UNIQUE(latitude, longitude)`). -/
structure LocRow where
  id : Nat
  latitude : ℚ
  longitude : ℚ
  state : String
  municipality : String
deriving DecidableEq

/-- A row of the `satellite_data` table (lines 145-154,
`UNIQUE(source, satellite, instrument)`); its nullable `confidence` column
is never written by the persister. -/
structure SatRow where
  id : Nat
  source : String
  satellite : String
  instrument : String
deriving DecidableEq

/-- A row of the `fire_incidents` table (lines 156-174,
`UNIQUE(location_id, satellite_id, acquisition_date)`); the bookkeeping
`created_at`/`updated_at` columns are left out. -/
structure IncRow where
  id : Nat
  locationId : Nat
  satelliteId : Nat
  acqDate : Option Int
  brightness : Option ℚ
  scan : Option ℚ
  track : Option ℚ
  frp : Option ℚ
  daynight : String
  type : String
  version : String
  confidence : Option Int
deriving DecidableEq

/-- The relational store created by `initializeTables` (nasaService.js
lines 128-184): the three tables plus the `SERIAL` sequences feeding their
`id` columns. -/
structure DB where
  locations : List LocRow
  satellites : List SatRow
  incidents : List IncRow
  nextLocId : Nat
  nextSatId : Nat
  nextIncId : Nat
deriving DecidableEq

/-- A freshly initialized store: empty tables, sequences at 1. -/
def emptyDB : DB :=
  { locations := [], satellites := [], incidents := [],
    nextLocId := 1, nextSatId := 1, nextIncId := 1 }

/-- Steps 2-3 of `saveFireData` for one incident (nasaService.js lines
432-469): if a `fire_incidents` row with the same
(location_id, acquisition_date, satellite_id) already exists the detection
is skipped, otherwise a new row with all measurement fields is inserted. -/
def insertIncidentIfNew (satelliteId locationId : Nat) (db : DB) (fire : Fire) : DB :=
  if db.incidents.any (fun r =>
      decide (r.locationId = locationId ∧ r.acqDate = fire.acquisition_date ∧
        r.satelliteId = satelliteId)) then
    db
  else
    { db with
      incidents := db.incidents ++
        [ { id := db.nextIncId
            locationId := locationId
            satelliteId := satelliteId
            acqDate := fire.acquisition_date
            brightness := fire.brightness
            scan := fire.scan
            track := fire.track
            frp := fire.frp
            daynight := fire.daynight
            type := fire.type
            version := fire.version
            confidence := fire.confidence } ]
      nextIncId := db.nextIncId + 1 }

/-- The per-fire body of `saveFireData` (nasaService.js lines 408-475):
look the location up by exact coordinates, create it on first use
(`fire.state || 'MA'`, `fire.municipality || 'Unknown'` — the JS `||`
replaces an empty string), then check-and-insert the incident.  The
per-fire `catch` only matters for database failures, which this pure model
does not produce. -/
def processFire (satelliteId : Nat) (db : DB) (fire : Fire) : DB :=
  match db.locations.find? (fun r =>
      decide (r.latitude = fire.latitude ∧ r.longitude = fire.longitude)) with
  | some row => insertIncidentIfNew satelliteId row.id db fire
  | none =>
    let locRow : LocRow :=
      { id := db.nextLocId
        latitude := fire.latitude
        longitude := fire.longitude
        state := if fire.state = "" then "MA" else fire.state
        municipality := if fire.municipality = "" then "Unknown" else fire.municipality }
    insertIncidentIfNew satelliteId locRow.id
      { db with locations := db.locations ++ [locRow], nextLocId := db.nextLocId + 1 }
      fire

/-- The Deduplicating Persister `saveFireData(fires, source)` (nasaService.js
lines 393-484).  Step 1 runs
`INSERT INTO satellite_data ... ON CONFLICT (source, satellite, instrument)
DO NOTHING RETURNING id`: when the (source, source, source) triple already
exists, `DO NOTHING` suppresses the insert AND the `RETURNING` row set is
empty, so the subsequent `satelliteData.rows[0].id` throws a TypeError that
the outer catch re-throws — the call fails with the store untouched.  Only
on first use of the triple does the row get created and the per-fire loop
run.  The pair returned is the store after the call together with the JS
result (`fires.length`, or the thrown error). -/
def saveFireData (db : DB) (fires : List Fire) (source : String) :
    DB × Except Unit Nat :=
  if db.satellites.any (fun r =>
      decide (r.source = source ∧ r.satellite = source ∧ r.instrument = source)) then
    (db, Except.error ())
  else
    let satRow : SatRow :=
      { id := db.nextSatId, source := source, satellite := source, instrument := source }
    let db1 : DB :=
      { db with satellites := db.satellites ++ [satRow], nextSatId := db.nextSatId + 1 }
    (fires.foldl (fun d fire => processFire satRow.id d fire) db1, Except.ok fires.length)

/-- Milliseconds of one day, the granularity of `setHours(0, 0, 0, 0)`. -/
def dayMs : Nat := 86400000

/-- The delay computation of `scheduleWeatherUpdate` (server index, lines
766-794), on local-epoch milliseconds: `setHours(0,0,0,0)` floors `now` to
its midnight, `if (now > nextMidnight)` moves a strictly-past midnight one
day forward, and the timer is armed to fire at the resulting instant
(`setTimeout` with `nextMidnight - now`). -/
def scheduleWeatherUpdate (now : Nat) : Nat :=
  let nextMidnight := dayMs * (now / dayMs)
  if nextMidnight < now then nextMidnight + dayMs else nextMidnight

/-- Outcome of one scheduled Running cycle (`fetchAndSaveWeatherData`). -/
inductive CycleResult where
  | success : CycleResult
  | failure : CycleResult

/-- The `setTimeout` callback of `scheduleWeatherUpdate` (lines 783-793):
after the cycle, the `try` branch reschedules, and the `catch` branch also
reschedules ("Still schedule the next update even if this one failed").
The returned value is the instant the next timer is armed for; `none` would
mean the timer was left un-armed, which no branch does. -/
def weatherUpdateTimerHandler (result : CycleResult) (now : Nat) : Option Nat :=
  match result with
  | CycleResult.success => some (scheduleWeatherUpdate now)
  | CycleResult.failure => some (scheduleWeatherUpdate now)

/-- The hypothesis of the fallback clause of the Locality Resolver: the
primary call failed, or returned no municipality, or a municipality that
matches no name of the Locality Index. -/
def primaryUnmatched (nominatim : ℚ → ℚ → NomOutcome) (cities : List City)
    (latitude longitude : ℚ) : Prop :=
  match nominatim latitude longitude with
  | NomOutcome.fail => True
  | NomOutcome.address none => True
  | NomOutcome.address (some m) =>
    cities.find? (fun city => city.name.toLower == m.toLower) = none

/-- In-region predicate for a stored fire location row. -/
def locRowInBounds (r : LocRow) : Prop :=
  MARANHAO_STATE_BOUNDS.south ≤ r.latitude ∧ r.latitude ≤ MARANHAO_STATE_BOUNDS.north ∧
  MARANHAO_STATE_BOUNDS.west ≤ r.longitude ∧ r.longitude ≤ MARANHAO_STATE_BOUNDS.east

/-- In-region predicate for a normalized detection. -/
def fireInBounds (f : Fire) : Prop :=
  MARANHAO_STATE_BOUNDS.south ≤ f.latitude ∧ f.latitude ≤ MARANHAO_STATE_BOUNDS.north ∧
  MARANHAO_STATE_BOUNDS.west ≤ f.longitude ∧ f.longitude ≤ MARANHAO_STATE_BOUNDS.east

instance (r : LocRow) : Decidable (locRowInBounds r) :=
  inferInstanceAs (Decidable (_ ≤ _ ∧ _ ≤ _ ∧ _ ≤ _ ∧ _ ≤ _))

instance (f : Fire) : Decidable (fireInBounds f) :=
  inferInstanceAs (Decidable (_ ≤ _ ∧ _ ≤ _ ∧ _ ≤ _ ∧ _ ≤ _))

/-- A primary resolver that always fails, as in the spec scenario where the
geocoding call is simulated to always fail. -/
def nomFail : ℚ → ℚ → NomOutcome := fun _ _ => NomOutcome.fail

/-- A two-entry Locality Index for concrete runs; the first entry sits at
the probe point, the second one degree away. -/
def w3cities : List City :=
  [ { name := "Alpha", latitude := -5, longitude := -45 }
  , { name := "Beta", latitude := -3, longitude := -44 } ]

/-- Parse oracles that parse nothing, for runs on empty payloads. -/
def nullParseEnv : ParseEnv :=
  { parseFloatJS := fun _ => none
    parseIntJS := fun _ => none
    parseDateJS := fun _ => none
    nominatim := nomFail
    cities := [] }

/-- A network where every source answers ok with an empty payload. -/
def okEmptyFetchEnv : FetchEnv :=
  { parse := nullParseEnv, fetch := fun _ => FetchResult.ok "" }

/-- A network where exactly one source answers with a non-ok HTTP status
and the others answer ok. -/
def badStatusOneFetchEnv : FetchEnv :=
  { parse := nullParseEnv
    fetch := fun id => if id = "MODIS_NRT" then FetchResult.badStatus else FetchResult.ok "" }

/-- A network where every fetch call rejects. -/
def throwFetchEnv : FetchEnv :=
  { parse := nullParseEnv, fetch := fun _ => FetchResult.threw }

/-- Per-iteration environments where the first `fetchAllSatelliteData`
iteration throws and the later ones succeed. -/
def mixedIterEnvs : Nat → FetchEnv :=
  fun i => if i = 0 then throwFetchEnv else okEmptyFetchEnv

/-- A concrete `parseFloat` oracle covering the strings of the test
payloads (`parseFloat` of anything else, e.g. `"x"`, `"zed"` or `"bad"`,
is `NaN`). -/
def testParseFloat : Option String → Option ℚ
  | some "-5.0" => some (-5)
  | some "-45.0" => some (-45)
  | some "300.5" => some (mkRat 601 2)
  | some "1.0" => some 1
  | some "10.0" => some 10
  | _ => none

/-- Concrete parse oracles with a one-entry Locality Index at the payload
coordinate and a failing primary resolver. -/
def testParseEnv : ParseEnv :=
  { parseFloatJS := testParseFloat
    parseIntJS := fun v => if v = some "50" then some 50 else none
    parseDateJS := fun s => if s = "2024-01-01" then some 0 else none
    nominatim := nomFail
    cities := [{ name := "TestCity", latitude := -5, longitude := -45 }] }

/-- One well-formed in-range data row plus one row with a mismatched column
count (2 fields against 9 header columns). -/
def testPayload : String :=
  "latitude,longitude,acq_date,bright_ti4,scan,track,confidence,frp,daynight\n-5.0,-45.0,2024-01-01,300.5,1.0,1.0,50,10.0,D\nbad,row"

/-- The source the test payloads are parsed under. -/
def testSource : SatSource := { id := "MODIS_NRT", name := "MODIS NRT" }

/-- A resolved detection for concrete persister runs, inside the region. -/
def w1fire : Fire :=
  { latitude := -5, longitude := -45, acquisition_date := some 0
    brightness := some 300, scan := some 1, track := some 1
    satellite := "MODIS", instrument := "MODIS", confidence := some 50
    frp := some 10, daynight := "D", type := "hotspot", version := "1.0"
    municipality := "TestCity", state := "MA" }

/-- A stored location row at the coordinates of `w1fire`. -/
def w1loc : LocRow :=
  { id := 7, latitude := -5, longitude := -45, state := "MA", municipality := "TestCity" }

/-- A stored incident row carrying the dedup key of `w1fire` at location 7
under sensor row 2. -/
def w1inc : IncRow :=
  { id := 3, locationId := 7, satelliteId := 2, acqDate := some 0
    brightness := some 300, scan := some 1, track := some 1, frp := some 10
    daynight := "D", type := "hotspot", version := "1.0", confidence := some 50 }

/-- A store that already holds `w1loc` and `w1inc`. -/
def w1db : DB :=
  { locations := [w1loc], satellites := [], incidents := [w1inc]
    nextLocId := 8, nextSatId := 1, nextIncId := 4 }

/-- Header row of the unparseable-measurements witness row. -/
def w8headers : List String :=
  ["latitude", "longitude", "acq_date", "brightness", "scan", "track", "confidence", "frp"]

/-- A data row whose five measurement fields all fail to parse. -/
def w8line : String := "-5.0,-45.0,2024-01-01,x,x,x,x,x"

/-- The detection the normalizer emits for `w8line`: every unparseable
measurement coerced to zero. -/
def w8fire : Fire :=
  { latitude := -5, longitude := -45, acquisition_date := some 0
    brightness := some 0, scan := some 0, track := some 0
    satellite := "MODIS_NRT", instrument := "MODIS", confidence := some 0
    frp := some 0, daynight := "D", type := "hotspot", version := "1.0"
    municipality := "TestCity", state := "MA" }

/-- Header row of the unparseable-latitude witness row. -/
def w10headers : List String := ["latitude", "longitude", "acq_date"]

/-- A data row whose latitude fails to parse. -/
def w10line : String := "zed,-45.0,2024-01-01"

theorem insertIncidentIfNew_satellites (satelliteId locationId : Nat) (db : DB) (fire : Fire) :
    (insertIncidentIfNew satelliteId locationId db fire).satellites = db.satellites := by
  unfold insertIncidentIfNew
  split <;> rfl

theorem processFire_satellites (satelliteId : Nat) (db : DB) (fire : Fire) :
    (processFire satelliteId db fire).satellites = db.satellites := by
  unfold processFire
  split <;> simp [insertIncidentIfNew_satellites]

theorem foldl_processFire_satellites (satelliteId : Nat) (fires : List Fire) (db : DB) :
    (fires.foldl (fun d fire => processFire satelliteId d fire) db).satellites =
      db.satellites := by
  induction fires generalizing db with
  | nil => rfl
  | cons f rest ih => simp [List.foldl_cons, ih, processFire_satellites]

theorem saveFireData_satTriple (db : DB) (fires : List Fire) (source : String) :
    ((saveFireData db fires source).1.satellites.any (fun r =>
      decide (r.source = source ∧ r.satellite = source ∧ r.instrument = source))) = true := by
  unfold saveFireData
  split
  · next h => exact h
  · next h =>
    simp only [foldl_processFire_satellites, List.any_append, List.any_cons, List.any_nil]
    simp

/-- C1: running `saveFireData` on a batch and then again on the same batch
leaves the store — and with it the set of `fire_incidents` rows — exactly
as it was after the first run: the repeated call finds the
(source, source, source) sensor triple already present and fails at step 1
before touching any row, so no duplicate incident is inserted and no stored
measurement field is updated; and inside a run, a detection whose
(location, sensor, acquisition timestamp) key is already stored is skipped
by the incident check, leaving the store unchanged. -/
theorem persister_rerun_leaves_incidents_unchanged
    (db db2 : DB) (fires : List Fire) (source : String) (satelliteId : Nat)
    (fire : Fire) (locRow : LocRow)
    (h1 : db2.locations.find? (fun r =>
      decide (r.latitude = fire.latitude ∧ r.longitude = fire.longitude)) = some locRow)
    (h2 : ∃ inc ∈ db2.incidents, inc.locationId = locRow.id ∧
      inc.acqDate = fire.acquisition_date ∧ inc.satelliteId = satelliteId) :
    saveFireData (saveFireData db fires source).1 fires source =
      ((saveFireData db fires source).1, Except.error ()) ∧
    processFire satelliteId db2 fire = db2 := by
  constructor
  · have h := saveFireData_satTriple db fires source
    conv_lhs => rw [saveFireData]
    rw [if_pos h]
  · have hany : db2.incidents.any (fun r =>
        decide (r.locationId = locRow.id ∧ r.acqDate = fire.acquisition_date ∧
          r.satelliteId = satelliteId)) = true := by
      rcases h2 with ⟨inc, hmem, ha, hb, hc⟩
      refine List.any_eq_true.mpr ⟨inc, hmem, ?_⟩
      simp [ha, hb, hc]
    unfold processFire
    rw [h1]
    show insertIncidentIfNew satelliteId locRow.id db2 fire = db2
    unfold insertIncidentIfNew
    rw [if_pos hany]

/-- C1 witness: the general theorem applied to a concrete store that holds
one location row and one incident row matching a concrete detection. -/
theorem persister_rerun_witness :
    (w1db.locations.find? (fun r =>
      decide (r.latitude = w1fire.latitude ∧ r.longitude = w1fire.longitude)) = some w1loc) ∧
    (∃ inc ∈ w1db.incidents, inc.locationId = w1loc.id ∧
      inc.acqDate = w1fire.acquisition_date ∧ inc.satelliteId = 2) ∧
    (saveFireData (saveFireData emptyDB [w1fire] "MODIS_NRT").1 [w1fire] "MODIS_NRT" =
      ((saveFireData emptyDB [w1fire] "MODIS_NRT").1, Except.error ()) ∧
     processFire 2 w1db w1fire = w1db) :=
  ⟨by decide, by decide,
    persister_rerun_leaves_incidents_unchanged emptyDB w1db [w1fire] "MODIS_NRT" 2 w1fire w1loc
      (by decide) (by decide)⟩

/-- C2: the persistence sequence does NOT reuse an existing sensor-source
row: on the first call for a source the `satellite_data` row is created and
the call succeeds, but on the second call for the same source the
`ON CONFLICT DO NOTHING RETURNING id` statement returns no row, so
`satelliteData.rows[0].id` throws and the call fails instead of reusing the
stored id. -/
theorem sensor_source_second_call_throws :
    (saveFireData emptyDB [] "MODIS_NRT").2 = Except.ok 0 ∧
    (saveFireData (saveFireData emptyDB [] "MODIS_NRT").1 [] "MODIS_NRT").2 =
      Except.error () := by
  exact ⟨by decide, by decide⟩

/-- C9: whatever the outcome of the scheduled daily cycle — success or
error — the `setTimeout` callback re-arms the timer, and the newly armed
instant is exactly the next local midnight: a multiple of a day, no earlier
than now, and less than one day away. -/
theorem scheduler_always_rearms (result : CycleResult) (now : Nat) :
    ∃ t, weatherUpdateTimerHandler result now = some t ∧
      t % dayMs = 0 ∧ now ≤ t ∧ t < now + dayMs := by
  have hdef : scheduleWeatherUpdate now =
      if dayMs * (now / dayMs) < now then dayMs * (now / dayMs) + dayMs
      else dayMs * (now / dayMs) := rfl
  have h1 : dayMs * (now / dayMs) + now % dayMs = now := Nat.div_add_mod now dayMs
  have h2 : now % dayMs < dayMs := Nat.mod_lt now (by decide)
  refine ⟨scheduleWeatherUpdate now, ?_, ?_, ?_, ?_⟩
  · cases result <;> rfl
  · rw [hdef]
    split
    · rw [Nat.mul_add_mod, Nat.mod_self]
    · exact Nat.mul_mod_right dayMs (now / dayMs)
  · rw [hdef]
    split <;> omega
  · rw [hdef]
    split <;> omega

theorem rowToFire_inv {env : ParseEnv} {source : SatSource} {startDate endDate : Int}
    {headers : List String} {line : String} {f : Fire}
    (h : rowToFire env source startDate endDate headers line = some f) :
    ∃ ds latitude longitude mi,
      rowField headers line "acq_date" = some ds ∧
      dateOutsideRange (env.parseDateJS ds) startDate endDate = false ∧
      safeParseFloat env (rowField headers line "latitude") = some latitude ∧
      safeParseFloat env (rowField headers line "longitude") = some longitude ∧
      outOfMaranhaoBounds latitude longitude = false ∧
      reverseGeocode env.nominatim env.cities latitude longitude = some mi ∧
      f = { latitude := latitude
            longitude := longitude
            acquisition_date := env.parseDateJS ds
            brightness := safeParseFloat env ((rowField headers line "bright_ti4").orElse
              (fun _ => rowField headers line "brightness"))
            scan := safeParseFloat env (rowField headers line "scan")
            track := safeParseFloat env (rowField headers line "track")
            satellite := (rowField headers line "satellite").getD source.id
            instrument := (rowField headers line "instrument").getD
              ((jsSplitChar '_' source.id).headD "")
            confidence := safeParseInt env (rowField headers line "confidence")
            frp := safeParseFloat env (rowField headers line "frp")
            daynight := (rowField headers line "daynight").getD "D"
            type := "hotspot"
            version := "1.0"
            municipality := mi.municipality
            state := mi.state } := by
  unfold rowToFire at h
  split at h
  · exact Option.noConfusion h
  split at h
  · exact Option.noConfusion h
  next ds hacq =>
    split at h
    · exact Option.noConfusion h
    next hdate =>
      split at h
      · exact Option.noConfusion h
      next latitude hlat =>
        split at h
        · exact Option.noConfusion h
        next longitude hlon =>
          split at h
          · exact Option.noConfusion h
          next hout =>
            split at h
            · exact Option.noConfusion h
            next mi hgeo =>
              refine ⟨ds, latitude, longitude, mi, hacq, ?_, hlat, hlon, ?_, hgeo, ?_⟩
              · simpa using hdate
              · simpa using hout
              · exact (Option.some.inj h).symm

theorem getLoop_no_throw (env : FetchEnv) (startDate endDate : Int) :
    ∀ (l : List SatSource) (reqs : List FirmsRequest) (allFires : List Fire),
      (∀ s ∈ l, env.fetch s.id ≠ FetchResult.threw) →
      getMaranhaoFireDataLoop env startDate endDate l reqs allFires =
        (reqs ++ l.map (fun s => makeRequest s startDate endDate),
         Except.ok (allFires ++ (l.map (sourceFires env startDate endDate)).flatten)) := by
  intro l
  induction l with
  | nil => intro reqs allFires _; simp [getMaranhaoFireDataLoop]
  | cons s rest ih =>
    intro reqs allFires h
    have hs : env.fetch s.id ≠ FetchResult.threw := h s (List.mem_cons_self s rest)
    have hr : ∀ x ∈ rest, env.fetch x.id ≠ FetchResult.threw :=
      fun x hx => h x (List.mem_cons_of_mem s hx)
    cases hf : env.fetch s.id with
    | threw => exact absurd hf hs
    | badStatus =>
      simp only [getMaranhaoFireDataLoop, hf]
      rw [ih (reqs ++ [makeRequest s startDate endDate]) allFires hr]
      simp [sourceFires, hf]
    | ok text =>
      simp only [getMaranhaoFireDataLoop, hf]
      rw [ih (reqs ++ [makeRequest s startDate endDate])
        (allFires ++ parseFires env.parse s startDate endDate text) hr]
      simp [sourceFires, hf]

theorem getLoop_requests (env : FetchEnv) (startDate endDate : Int) :
    ∀ (l : List SatSource) (reqs : List FirmsRequest) (allFires : List Fire)
      (r : FirmsRequest),
      r ∈ (getMaranhaoFireDataLoop env startDate endDate l reqs allFires).1 →
      r ∈ reqs ∨ ∃ s ∈ l, r = makeRequest s startDate endDate := by
  intro l
  induction l with
  | nil =>
    intro reqs allFires r hr
    exact Or.inl hr
  | cons s rest ih =>
    intro reqs allFires r hr
    have step : ∀ reqs2 allFires2,
        r ∈ (getMaranhaoFireDataLoop env startDate endDate rest
          (reqs2 ++ [makeRequest s startDate endDate]) allFires2).1 →
        r ∈ reqs2 ∨ ∃ x ∈ s :: rest, r = makeRequest x startDate endDate := by
      intro reqs2 allFires2 hmem
      rcases ih _ _ r hmem with hin | ⟨x, hx, hrx⟩
      · rcases List.mem_append.mp hin with h1 | h1
        · exact Or.inl h1
        · refine Or.inr ⟨s, List.mem_cons_self s rest, ?_⟩
          simpa using h1
      · exact Or.inr ⟨x, List.mem_cons_of_mem s hx, hrx⟩
    rw [getMaranhaoFireDataLoop] at hr
    cases hf : env.fetch s.id with
    | threw =>
      simp only [hf] at hr
      rcases List.mem_append.mp hr with h1 | h1
      · exact Or.inl h1
      · refine Or.inr ⟨s, List.mem_cons_self s rest, ?_⟩
        simpa using h1
    | badStatus =>
      simp only [hf] at hr
      exact step reqs allFires hr
    | ok text =>
      simp only [hf] at hr
      exact step reqs (allFires ++ parseFires env.parse s startDate endDate text) hr

theorem fetchAllLoop_eq_attemptsFrom (envs : Nat → FetchEnv) (startDate endDate : Int) :
    ∀ (l : List SatSource) (i : Nat) (acc : List Fire),
      fetchAllLoop envs startDate endDate i l acc =
        acc ++ attemptsFrom envs startDate endDate i l := by
  intro l
  induction l with
  | nil => intro i acc; simp [fetchAllLoop, attemptsFrom]
  | cons s rest ih =>
    intro i acc
    cases h : (getMaranhaoFireData (envs i) startDate endDate).2 with
    | ok fires =>
      simp only [fetchAllLoop, h]
      rw [ih (i + 1) (acc ++ fires)]
      simp only [attemptsFrom, attemptFires, h]
      simp [List.append_assoc]
    | error e =>
      simp only [fetchAllLoop, h]
      rw [ih (i + 1) acc]
      simp only [attemptsFrom, attemptFires, h]
      simp

/-- C4: a fetch failure for one source is not fatal.  Inside one
`getMaranhaoFireData` run, as long as no fetch rejects, every source is
visited and the result collects exactly the per-source contributions — a
source answering a non-ok HTTP status contributes nothing but does not stop
the loop; and across the `fetchAllSatelliteData` loop, each iteration's
thrown error is caught so the total is the concatenation of the successful
iterations' fires, whatever the failed iterations did. -/
theorem fetch_failure_nonfatal (env : FetchEnv) (envs : Nat → FetchEnv)
    (startDate endDate : Int)
    (h : ∀ s ∈ SATELLITE_SOURCES, env.fetch s.id ≠ FetchResult.threw) :
    (getMaranhaoFireData env startDate endDate).2 =
      Except.ok ((SATELLITE_SOURCES.map (sourceFires env startDate endDate)).flatten) ∧
    fetchAllSatelliteData envs startDate endDate =
      attemptsFrom envs startDate endDate 0 SATELLITE_SOURCES ∧
    (∀ i, (getMaranhaoFireData (envs i) startDate endDate).2 = Except.error () →
      attemptFires envs startDate endDate i = []) ∧
    (∀ i fires, (getMaranhaoFireData (envs i) startDate endDate).2 = Except.ok fires →
      attemptFires envs startDate endDate i = fires) := by
  refine ⟨?_, ?_, ?_, ?_⟩
  · unfold getMaranhaoFireData
    rw [getLoop_no_throw env startDate endDate SATELLITE_SOURCES [] [] h]
    rfl
  · unfold fetchAllSatelliteData
    rw [fetchAllLoop_eq_attemptsFrom envs startDate endDate SATELLITE_SOURCES 0 []]
    rfl
  · intro i hi
    unfold attemptFires
    rw [hi]
  · intro i fires hi
    unfold attemptFires
    rw [hi]

/-- C4 witness: the theorem applied to a network where the MODIS_NRT fetch
answers a non-ok status and the others succeed, and to iteration
environments where the first `fetchAllSatelliteData` iteration throws. -/
theorem fetch_failure_witness :
    (∀ s ∈ SATELLITE_SOURCES, badStatusOneFetchEnv.fetch s.id ≠ FetchResult.threw) ∧
    ((getMaranhaoFireData badStatusOneFetchEnv 0 0).2 =
      Except.ok ((SATELLITE_SOURCES.map (sourceFires badStatusOneFetchEnv 0 0)).flatten) ∧
     fetchAllSatelliteData mixedIterEnvs 0 0 =
      attemptsFrom mixedIterEnvs 0 0 0 SATELLITE_SOURCES ∧
     (∀ i, (getMaranhaoFireData (mixedIterEnvs i) 0 0).2 = Except.error () →
      attemptFires mixedIterEnvs 0 0 i = []) ∧
     (∀ i fires, (getMaranhaoFireData (mixedIterEnvs i) 0 0).2 = Except.ok fires →
      attemptFires mixedIterEnvs 0 0 i = fires)) :=
  ⟨by decide, fetch_failure_nonfatal badStatusOneFetchEnv mixedIterEnvs 0 0 (by decide)⟩

/-- C5 counterexample: a request 20 days wide is neither rejected nor
truncated — the run returns ok and the issued requests carry the over-wide
begin/end range unchanged, refuting the claim as stated. -/
theorem fetcher_validation_cex :
    ¬ (∀ (env : FetchEnv) (startDate endDate : Int), endDate - startDate > 10 →
        (getMaranhaoFireData env startDate endDate).2 = Except.error () ∨
        ∀ r ∈ (getMaranhaoFireData env startDate endDate).1,
          r.endParam - r.beginParam ≤ 10) := by
  intro hclaim
  rcases hclaim okEmptyFetchEnv 0 20 (by decide) with h | h
  · exact absurd h (by decide)
  · exact absurd
      (h (makeRequest { id := "VIIRS_SNPP_NRT", name := "VIIRS SNPP NRT" } 0 20) (by decide))
      (by decide)

/-- C5 as amended: the Fetcher performs no date-range validation at all.
Every request it issues carries the caller's begin/end dates unchanged next
to a constant 10-day path segment, the call returns ok whenever no fetch
rejects (no validation error for any width), and rows outside the
requested range are only dropped afterwards by the Normalizer's date
filter. -/
theorem fetcher_passes_range_unchanged (env : FetchEnv) (startDate endDate : Int)
    (hok : ∀ s ∈ SATELLITE_SOURCES, env.fetch s.id ≠ FetchResult.threw) :
    (∀ r ∈ (getMaranhaoFireData env startDate endDate).1,
      r.beginParam = startDate ∧ r.endParam = endDate ∧ r.dayRange = 10) ∧
    (∃ fires, (getMaranhaoFireData env startDate endDate).2 = Except.ok fires) ∧
    (∀ source text f t, f ∈ parseFires env.parse source startDate endDate text →
      f.acquisition_date = some t → startDate ≤ t ∧ t ≤ endDate) := by
  refine ⟨?_, ?_, ?_⟩
  · intro r hr
    rcases getLoop_requests env startDate endDate SATELLITE_SOURCES [] [] r hr with
      hin | ⟨s, _, hrs⟩
    · exact absurd hin (List.not_mem_nil r)
    · rw [hrs]
      exact ⟨rfl, rfl, rfl⟩
  · refine ⟨(SATELLITE_SOURCES.map (sourceFires env startDate endDate)).flatten, ?_⟩
    unfold getMaranhaoFireData
    rw [getLoop_no_throw env startDate endDate SATELLITE_SOURCES [] [] hok]
    rfl
  · intro source text f t hmem hacq
    rcases List.mem_filterMap.mp hmem with ⟨line, _, hrow⟩
    rcases rowToFire_inv hrow with ⟨ds, latv, lonv, mi, _, hdate, _, _, _, _, hf⟩
    rw [hf] at hacq
    simp only at hacq
    rw [hacq] at hdate
    unfold dateOutsideRange at hdate
    simp only [Bool.or_eq_false_iff, decide_eq_false_iff_not, Int.not_lt] at hdate
    omega

/-- C5 amended-claim witness: the amended theorem applied to the all-ok
network and the concrete 20-day-wide range. -/
theorem fetcher_passes_range_witness :
    (∀ s ∈ SATELLITE_SOURCES, okEmptyFetchEnv.fetch s.id ≠ FetchResult.threw) ∧
    ((∀ r ∈ (getMaranhaoFireData okEmptyFetchEnv 0 20).1,
      r.beginParam = 0 ∧ r.endParam = 20 ∧ r.dayRange = 10) ∧
     (∃ fires, (getMaranhaoFireData okEmptyFetchEnv 0 20).2 = Except.ok fires) ∧
     (∀ source text f t, f ∈ parseFires okEmptyFetchEnv.parse source 0 20 text →
      f.acquisition_date = some t → 0 ≤ t ∧ t ≤ 20)) :=
  ⟨by decide, fetcher_passes_range_unchanged okEmptyFetchEnv 0 20 (by decide)⟩

theorem closestCityAux_isSome (lat lon : ℚ) :
    ∀ (l : List City) (p : City × ℚ),
      (closestCityAux lat lon l (some p)).isSome = true := by
  intro l
  induction l with
  | nil => intro p; rfl
  | cons c rest ih =>
    intro p
    rcases p with ⟨b, bd⟩
    simp only [closestCityAux]
    split
    · exact ih _
    · exact ih _

theorem someProd_inj {a b : City} {c d : ℚ} (h : some (a, c) = some (b, d)) :
    a = b ∧ c = d := by
  have hp := Option.some.inj h
  have h1 : a = b := congrArg Prod.fst hp
  have h2 : c = d := congrArg Prod.snd hp
  exact ⟨h1, h2⟩

theorem closestCityAux_min (lat lon : ℚ) :
    ∀ (l : List City) (best : Option (City × ℚ)) (c : City) (d : ℚ),
      (∀ b bd, best = some (b, bd) → bd = distSq lat lon b) →
      closestCityAux lat lon l best = some (c, d) →
      d = distSq lat lon c ∧
      (c ∈ l ∨ best = some (c, d)) ∧
      (∀ c2 ∈ l, d ≤ distSq lat lon c2) ∧
      (∀ b bd, best = some (b, bd) → d ≤ bd) := by
  intro l
  induction l with
  | nil =>
    intro best c d hbest h
    simp only [closestCityAux] at h
    refine ⟨hbest c d h, Or.inr h, by simp, ?_⟩
    intro b bd hb
    rw [h] at hb
    exact le_of_eq (someProd_inj hb).2
  | cons a rest ih =>
    intro best c d hbest h
    simp only [closestCityAux] at h
    have hbestA : ∀ b2 bd2, some (a, distSq lat lon a) = some (b2, bd2) →
        bd2 = distSq lat lon b2 := by
      intro b2 bd2 hb2
      rcases someProd_inj hb2 with ⟨e1, e2⟩
      rw [← e1, ← e2]
    cases best with
    | none =>
      have h3 := ih (some (a, distSq lat lon a)) c d hbestA h
      rcases h3 with ⟨hd, hmem, hmin, hbd⟩
      refine ⟨hd, ?_, ?_, ?_⟩
      · rcases hmem with h1 | h1
        · exact Or.inl (List.mem_cons_of_mem a h1)
        · have hc : a = c := (someProd_inj h1).1
          exact Or.inl (hc ▸ List.mem_cons_self a rest)
      · intro c2 hc2
        rcases List.mem_cons.mp hc2 with h1 | h1
        · rw [h1]
          exact hbd a (distSq lat lon a) rfl
        · exact hmin c2 h1
      · intro b bd hb
        exact Option.noConfusion hb
    | some p =>
      rcases p with ⟨b, bd⟩
      have hif : (if distSq lat lon a < bd then
          closestCityAux lat lon rest (some (a, distSq lat lon a))
        else closestCityAux lat lon rest (some (b, bd))) = some (c, d) := h
      by_cases hlt : distSq lat lon a < bd
      · rw [if_pos hlt] at hif
        have h3 := ih (some (a, distSq lat lon a)) c d hbestA hif
        rcases h3 with ⟨hd, hmem, hmin, hbd⟩
        have hda : d ≤ distSq lat lon a := hbd a (distSq lat lon a) rfl
        refine ⟨hd, ?_, ?_, ?_⟩
        · rcases hmem with h1 | h1
          · exact Or.inl (List.mem_cons_of_mem a h1)
          · have hc : a = c := (someProd_inj h1).1
            exact Or.inl (hc ▸ List.mem_cons_self a rest)
        · intro c2 hc2
          rcases List.mem_cons.mp hc2 with h1 | h1
          · rw [h1]
            exact hda
          · exact hmin c2 h1
        · intro b2 bd2 hb2
          rcases someProd_inj hb2 with ⟨_, e2⟩
          rw [← e2]
          exact le_of_lt (lt_of_le_of_lt hda hlt)
      · rw [if_neg hlt] at hif
        have h3 := ih (some (b, bd)) c d hbest hif
        rcases h3 with ⟨hd, hmem, hmin, hbd⟩
        have hdb : d ≤ bd := hbd b bd rfl
        have hab : bd ≤ distSq lat lon a := le_of_not_lt hlt
        refine ⟨hd, ?_, ?_, ?_⟩
        · rcases hmem with h1 | h1
          · exact Or.inl (List.mem_cons_of_mem a h1)
          · exact Or.inr h1
        · intro c2 hc2
          rcases List.mem_cons.mp hc2 with h1 | h1
          · rw [h1]
            exact le_trans hdb hab
          · exact hmin c2 h1
        · exact hbd

theorem closestCity_spec (lat lon : ℚ) (cities : List City) (c : City)
    (h : closestCity lat lon cities = some c) :
    c ∈ cities ∧ ∀ c2 ∈ cities, distSq lat lon c ≤ distSq lat lon c2 := by
  unfold closestCity at h
  cases haux : closestCityAux lat lon cities none with
  | none =>
    rw [haux] at h
    exact Option.noConfusion h
  | some p =>
    rcases p with ⟨c0, d0⟩
    rw [haux] at h
    have hc0 : c0 = c := Option.some.inj h
    have h3 := closestCityAux_min lat lon cities none c0 d0
      (fun b bd hb => Option.noConfusion hb) haux
    rcases h3 with ⟨hd, hmem, hmin, _⟩
    rcases hmem with h1 | h1
    · refine ⟨hc0 ▸ h1, ?_⟩
      intro c2 hc2
      rw [← hc0, ← hd]
      exact hmin c2 hc2
    · exact Option.noConfusion h1

theorem closestCity_isSome (lat lon : ℚ) (cities : List City) (hne : cities ≠ []) :
    (closestCity lat lon cities).isSome = true := by
  cases cities with
  | nil => exact absurd rfl hne
  | cons a rest =>
    unfold closestCity
    have h := closestCityAux_isSome lat lon rest (a, distSq lat lon a)
    cases haux : closestCityAux lat lon rest (some (a, distSq lat lon a)) with
    | none =>
      rw [haux] at h
      exact absurd h (by simp)
    | some p =>
      simp only [closestCityAux, haux]
      rfl

/-- C3: for an in-region coordinate, whenever the primary geocoding call
fails, throws, or yields no municipality matching the Locality Index, the
resolver returns exactly the nearest-city fallback; the returned city
belongs to the index and minimises the Euclidean distance (in raw degrees)
to the input point over the whole index; and on a non-empty index the
fallback always produces a locality — it never fails. -/
theorem resolver_fallback_nearest (nominatim : ℚ → ℚ → NomOutcome) (cities : List City)
    (latitude longitude : ℚ)
    (h1 : outOfMaranhaoBounds latitude longitude = false)
    (h2 : primaryUnmatched nominatim cities latitude longitude) :
    reverseGeocode nominatim cities latitude longitude =
      (closestCity latitude longitude cities).map
        (fun c => { state := "MA", municipality := c.name }) ∧
    (∀ c, closestCity latitude longitude cities = some c →
      c ∈ cities ∧ ∀ c2 ∈ cities,
        Real.sqrt ((distSq latitude longitude c : ℚ) : ℝ) ≤
          Real.sqrt ((distSq latitude longitude c2 : ℚ) : ℝ)) ∧
    (cities ≠ [] → (reverseGeocode nominatim cities latitude longitude).isSome = true) := by
  have hfb : reverseGeocode nominatim cities latitude longitude =
      (closestCity latitude longitude cities).map
        (fun c => { state := "MA", municipality := c.name }) := by
    unfold reverseGeocode
    rw [h1]
    simp only [Bool.false_eq_true, if_false]
    unfold primaryUnmatched at h2
    cases hn : nominatim latitude longitude with
    | fail =>
      cases closestCity latitude longitude cities <;> rfl
    | address m =>
      cases m with
      | none =>
        cases closestCity latitude longitude cities <;> rfl
      | some m =>
        rw [hn] at h2
        have h2f : cities.find? (fun city => city.name.toLower == m.toLower) = none := h2
        cases hfind : cities.find? (fun city => city.name.toLower == m.toLower) with
        | some mc =>
          rw [hfind] at h2f
          exact Option.noConfusion h2f
        | none =>
          simp only [hfind]
          cases closestCity latitude longitude cities <;> rfl
  refine ⟨hfb, ?_, ?_⟩
  · intro c hc
    have hspec := closestCity_spec latitude longitude cities c hc
    refine ⟨hspec.1, ?_⟩
    intro c2 hc2
    apply Real.sqrt_le_sqrt
    exact_mod_cast hspec.2 c2 hc2
  · intro hne
    have h := closestCity_isSome latitude longitude cities hne
    cases hcc : closestCity latitude longitude cities with
    | none =>
      rw [hcc] at h
      exact absurd h (by simp)
    | some c =>
      rw [hfb, hcc]
      rfl

/-- C3 witness: the theorem applied to an always-failing primary resolver,
a two-entry index, and the in-region point (-5, -45). -/
theorem resolver_fallback_witness :
    (outOfMaranhaoBounds (-5) (-45) = false ∧
      primaryUnmatched nomFail w3cities (-5) (-45)) ∧
    (reverseGeocode nomFail w3cities (-5) (-45) =
      (closestCity (-5) (-45) w3cities).map
        (fun c => { state := "MA", municipality := c.name }) ∧
    (∀ c, closestCity (-5) (-45) w3cities = some c →
      c ∈ w3cities ∧ ∀ c2 ∈ w3cities,
        Real.sqrt ((distSq (-5) (-45) c : ℚ) : ℝ) ≤
          Real.sqrt ((distSq (-5) (-45) c2 : ℚ) : ℝ)) ∧
    (w3cities ≠ [] → (reverseGeocode nomFail w3cities (-5) (-45)).isSome = true)) :=
  ⟨⟨by decide, trivial⟩,
    resolver_fallback_nearest nomFail w3cities (-5) (-45) (by decide) trivial⟩

theorem outOfMaranhaoBounds_eq_false {lat lon : ℚ} :
    outOfMaranhaoBounds lat lon = false ↔
      (MARANHAO_STATE_BOUNDS.south ≤ lat ∧ lat ≤ MARANHAO_STATE_BOUNDS.north ∧
       MARANHAO_STATE_BOUNDS.west ≤ lon ∧ lon ≤ MARANHAO_STATE_BOUNDS.east) := by
  unfold outOfMaranhaoBounds
  simp only [Bool.or_eq_false_iff, decide_eq_false_iff_not, not_lt, gt_iff_lt]
  tauto

theorem parseFires_inBounds (env : ParseEnv) (source : SatSource) (startDate endDate : Int)
    (text : String) :
    ∀ f ∈ parseFires env source startDate endDate text, fireInBounds f := by
  intro f hf
  rcases List.mem_filterMap.mp hf with ⟨line, _, hrow⟩
  rcases rowToFire_inv hrow with ⟨ds, latv, lonv, mi, _, _, _, _, hout, _, hfe⟩
  have hb := outOfMaranhaoBounds_eq_false.mp hout
  rw [hfe]
  exact ⟨hb.1, hb.2.1, hb.2.2.1, hb.2.2.2⟩

theorem insertIncidentIfNew_locations (satelliteId locationId : Nat) (db : DB) (fire : Fire) :
    (insertIncidentIfNew satelliteId locationId db fire).locations = db.locations := by
  unfold insertIncidentIfNew
  split <;> rfl

theorem processFire_locations (satelliteId : Nat) (db : DB) (fire : Fire) :
    (processFire satelliteId db fire).locations = db.locations ∨
    (processFire satelliteId db fire).locations = db.locations ++
      [{ id := db.nextLocId, latitude := fire.latitude, longitude := fire.longitude,
         state := if fire.state = "" then "MA" else fire.state,
         municipality := if fire.municipality = "" then "Unknown" else fire.municipality }] := by
  unfold processFire
  split
  · exact Or.inl (insertIncidentIfNew_locations ..)
  · exact Or.inr (insertIncidentIfNew_locations ..)

theorem processFire_locations_inv (satelliteId : Nat) (db : DB) (fire : Fire)
    (hf : fireInBounds fire) (hdb : ∀ r ∈ db.locations, locRowInBounds r) :
    ∀ r ∈ (processFire satelliteId db fire).locations, locRowInBounds r := by
  intro r hr
  rcases processFire_locations satelliteId db fire with h | h
  · rw [h] at hr
    exact hdb r hr
  · rw [h] at hr
    rcases List.mem_append.mp hr with h1 | h1
    · exact hdb r h1
    · rw [List.mem_singleton] at h1
      rw [h1]
      exact ⟨hf.1, hf.2.1, hf.2.2.1, hf.2.2.2⟩

theorem foldl_processFire_locations_inv (satelliteId : Nat) :
    ∀ (fires : List Fire) (db : DB),
      (∀ f ∈ fires, fireInBounds f) →
      (∀ r ∈ db.locations, locRowInBounds r) →
      ∀ r ∈ (fires.foldl (fun d fire => processFire satelliteId d fire) db).locations,
        locRowInBounds r := by
  intro fires
  induction fires with
  | nil => intro db _ hdb r hr; exact hdb r hr
  | cons f rest ih =>
    intro db hf hdb
    simp only [List.foldl_cons]
    exact ih (processFire satelliteId db f)
      (fun x hx => hf x (List.mem_cons_of_mem f hx))
      (processFire_locations_inv satelliteId db f (hf f (List.mem_cons_self f rest)) hdb)

/-- C6: the Normalizer only emits detections whose coordinates satisfy
south ≤ latitude ≤ north and west ≤ longitude ≤ east of the configured
region, and the Persister preserves the invariant: starting from a store
whose location rows are in-region and persisting an in-region batch, every
stored Fire Location row is still in-region. -/
theorem persisted_locations_in_bounds
    (env : ParseEnv) (source : SatSource) (startDate endDate : Int) (text : String)
    (db : DB) (fires : List Fire) (label : String)
    (hfires : ∀ f ∈ fires, fireInBounds f)
    (hdb : ∀ r ∈ db.locations, locRowInBounds r) :
    (∀ f ∈ parseFires env source startDate endDate text, fireInBounds f) ∧
    (∀ r ∈ (saveFireData db fires label).1.locations, locRowInBounds r) := by
  constructor
  · exact parseFires_inBounds env source startDate endDate text
  · intro r hr
    unfold saveFireData at hr
    by_cases hc : db.satellites.any (fun s =>
        decide (s.source = label ∧ s.satellite = label ∧ s.instrument = label)) = true
    · rw [if_pos hc] at hr
      exact hdb r hr
    · rw [if_neg hc] at hr
      exact foldl_processFire_locations_inv db.nextSatId fires
        { db with
          satellites := db.satellites ++
            [{ id := db.nextSatId, source := label, satellite := label,
               instrument := label }]
          nextSatId := db.nextSatId + 1 }
        hfires hdb r hr

/-- C6 witness: the theorem applied to the concrete payload and to an empty
store receiving one in-region detection. -/
theorem persisted_locations_witness :
    (∀ f ∈ [w1fire], fireInBounds f) ∧
    (∀ r ∈ emptyDB.locations, locRowInBounds r) ∧
    ((∀ f ∈ parseFires testParseEnv testSource 0 0 testPayload, fireInBounds f) ∧
     (∀ r ∈ (saveFireData emptyDB [w1fire] "MODIS_NRT").1.locations, locRowInBounds r)) :=
  ⟨by decide, by decide,
    persisted_locations_in_bounds testParseEnv testSource 0 0 testPayload emptyDB [w1fire]
      "MODIS_NRT" (by decide) (by decide)⟩

/-- C7: a data row whose comma-separated field count differs from the header
column count is skipped by the parse loop; and the concrete payload with one
well-formed in-range row and one mismatched row yields exactly one
normalized detection. -/
theorem mismatched_columns_skipped
    (env : ParseEnv) (source : SatSource) (startDate endDate : Int)
    (headers : List String) (line : String)
    (h : (jsSplitChar ',' line).length ≠ headers.length) :
    rowToFire env source startDate endDate headers line = none ∧
    (parseFires testParseEnv testSource 0 0 testPayload).length = 1 := by
  constructor
  · unfold rowToFire
    rw [if_pos h]
  · decide

/-- C7 witness: the theorem applied to a concrete two-field row under a
three-column header. -/
theorem mismatched_columns_witness :
    ((jsSplitChar ',' "bad,row").length ≠ (["a", "b", "c"] : List String).length) ∧
    (rowToFire testParseEnv testSource 0 0 ["a", "b", "c"] "bad,row" = none ∧
     (parseFires testParseEnv testSource 0 0 testPayload).length = 1) :=
  ⟨by decide,
    mismatched_columns_skipped testParseEnv testSource 0 0 ["a", "b", "c"] "bad,row"
      (by decide)⟩

/-- C8: on every row the Normalizer accepts, each numeric measurement
field whose text fails to parse (brightness via the
`bright_ti4 || brightness` chain, scan, track, frp, and the integer
confidence) is coerced to zero in the emitted detection — the row is
emitted, not aborted. -/
theorem unparseable_numeric_defaults_zero
    (env : ParseEnv) (source : SatSource) (startDate endDate : Int)
    (headers : List String) (line : String) (f : Fire)
    (h : rowToFire env source startDate endDate headers line = some f) :
    (env.parseFloatJS ((rowField headers line "bright_ti4").orElse
      (fun _ => rowField headers line "brightness")) = none → f.brightness = some 0) ∧
    (env.parseFloatJS (rowField headers line "scan") = none → f.scan = some 0) ∧
    (env.parseFloatJS (rowField headers line "track") = none → f.track = some 0) ∧
    (env.parseFloatJS (rowField headers line "frp") = none → f.frp = some 0) ∧
    (env.parseIntJS (rowField headers line "confidence") = none →
      f.confidence = some 0) := by
  rcases rowToFire_inv h with ⟨ds, latv, lonv, mi, _, _, _, _, _, _, hfe⟩
  refine ⟨?_, ?_, ?_, ?_, ?_⟩
  · intro hp
    rw [hfe]
    show safeParseFloat env ((rowField headers line "bright_ti4").orElse
      (fun _ => rowField headers line "brightness")) = some 0
    simp [safeParseFloat, hp]
  · intro hp
    rw [hfe]
    show safeParseFloat env (rowField headers line "scan") = some 0
    simp [safeParseFloat, hp]
  · intro hp
    rw [hfe]
    show safeParseFloat env (rowField headers line "track") = some 0
    simp [safeParseFloat, hp]
  · intro hp
    rw [hfe]
    show safeParseFloat env (rowField headers line "frp") = some 0
    simp [safeParseFloat, hp]
  · intro hp
    rw [hfe]
    show safeParseInt env (rowField headers line "confidence") = some 0
    simp [safeParseInt, hp]

/-- C8 witness: a concrete row whose five measurement fields are all
unparseable is still emitted, with every one of them zero. -/
theorem unparseable_numeric_witness :
    rowToFire testParseEnv testSource 0 0 w8headers w8line = some w8fire ∧
    w8fire.brightness = some 0 ∧ w8fire.scan = some 0 ∧ w8fire.track = some 0 ∧
    w8fire.frp = some 0 ∧ w8fire.confidence = some 0 := by
  have h : rowToFire testParseEnv testSource 0 0 w8headers w8line = some w8fire := by
    decide
  have hc := unparseable_numeric_defaults_zero testParseEnv testSource 0 0
    w8headers w8line w8fire h
  exact ⟨h, hc.1 (by decide), hc.2.1 (by decide), hc.2.2.1 (by decide),
    hc.2.2.2.1 (by decide), hc.2.2.2.2 (by decide)⟩

theorem zero_latitude_out (lon : ℚ) : outOfMaranhaoBounds 0 lon = true := by
  have h2 : decide ((0 : ℚ) > MARANHAO_STATE_BOUNDS.north) = true := by decide
  simp [outOfMaranhaoBounds, h2]

theorem zero_longitude_out (lat : ℚ) : outOfMaranhaoBounds lat 0 = true := by
  have h4 : decide ((0 : ℚ) > MARANHAO_STATE_BOUNDS.east) = true := by decide
  simp [outOfMaranhaoBounds, h4]

/-- C10: `safeParseFloat` never returns `NaN` (its result is always a
genuine number), so the `isNaN` skip branch of the parse loop is
unreachable; an unparseable coordinate text is coerced to the number 0,
the coordinate 0 lies outside the bounding region on both axes (0 is north
of the region's north edge and east of its east edge), and therefore a row
whose latitude or longitude fails to parse is dropped before the Persister
ever sees it. -/
theorem coerced_coordinates_dropped (env : ParseEnv) (v : Option String)
    (source : SatSource) (startDate endDate : Int)
    (headers : List String) (line : String) (lat lon : ℚ) :
    (safeParseFloat env v).isSome = true ∧
    (env.parseFloatJS v = none → safeParseFloat env v = some 0) ∧
    outOfMaranhaoBounds 0 lon = true ∧
    outOfMaranhaoBounds lat 0 = true ∧
    (env.parseFloatJS (rowField headers line "latitude") = none →
      rowToFire env source startDate endDate headers line = none) ∧
    (env.parseFloatJS (rowField headers line "longitude") = none →
      rowToFire env source startDate endDate headers line = none) := by
  refine ⟨?_, ?_, zero_latitude_out lon, zero_longitude_out lat, ?_, ?_⟩
  · cases hv : env.parseFloatJS v with
    | none => simp [safeParseFloat, hv]
    | some q => simp [safeParseFloat, hv]
  · intro hp
    simp [safeParseFloat, hp]
  · intro hp
    cases hrow : rowToFire env source startDate endDate headers line with
    | none => rfl
    | some f =>
      exfalso
      rcases rowToFire_inv hrow with ⟨ds, latv, lonv, mi, _, _, hlat, _, hout, _, _⟩
      have h0 : safeParseFloat env (rowField headers line "latitude") = some 0 := by
        simp [safeParseFloat, hp]
      rw [h0] at hlat
      have hl0 : (0 : ℚ) = latv := Option.some.inj hlat
      rw [← hl0] at hout
      rw [zero_latitude_out lonv] at hout
      exact Bool.noConfusion hout
  · intro hp
    cases hrow : rowToFire env source startDate endDate headers line with
    | none => rfl
    | some f =>
      exfalso
      rcases rowToFire_inv hrow with ⟨ds, latv, lonv, mi, _, _, _, hlon, hout, _, _⟩
      have h0 : safeParseFloat env (rowField headers line "longitude") = some 0 := by
        simp [safeParseFloat, hp]
      rw [h0] at hlon
      have hl0 : (0 : ℚ) = lonv := Option.some.inj hlon
      rw [← hl0] at hout
      rw [zero_longitude_out latv] at hout
      exact Bool.noConfusion hout

/-- C10 witness: a concrete row with an unparseable latitude is dropped by
the bounds filter and never emitted. -/
theorem coerced_coordinates_witness :
    testParseEnv.parseFloatJS (rowField w10headers w10line "latitude") = none ∧
    rowToFire testParseEnv testSource 0 0 w10headers w10line = none :=
  ⟨by decide,
    (coerced_coordinates_dropped testParseEnv (some "zed") testSource 0 0
      w10headers w10line 0 0).2.2.2.2.1 (by decide)⟩

end FireWatch
